import Mathlib

/-!
Shallow embedding of the core logic of the `line-to-definition` VS Code
extension (`src/extension.ts`), together with theorems checking the
natural-language specification of the extension against this embedding.

Host-editor services (active editor, word-range lookup, the definition
provider, the settings store) are modelled as oracle values packaged in an
environment record: each service call made by one event-handling cycle is
replaced by the value that call returns during that cycle.  Machine numbers
are modelled as `Int` (all arithmetic in the source is small-integer exact),
CSS pixel/character quantities as the numeric value embedded in the CSS
string the source builds (`linesToCss` returns the number rendered before
the `px` suffix), and the thrown `assert` as an `Except` error value.
-/

namespace LineToDefn

/-- `vscode.Position`: zero-based line and character coordinates. -/
structure Position where
  line : Int
  character : Int
deriving DecidableEq, Repr

/-- `vscode.Range`: start and end positions.  The source's `end` field is
named `stop` here because `end` is a Lean keyword. -/
structure Range where
  start : Position
  stop : Position
deriving DecidableEq, Repr

/-- `const centerOfRange = (start, end) => start + Math.floor((end - start) / 2)`
(extension.ts line 62).  For integer arguments `Math.floor` of the exact real
quotient is floor division, i.e. `Int.fdiv`. -/
def centerOfRange (start finish : Int) : Int :=
  start + (finish - start).fdiv 2

/-- The error value modelling a failed Node `assert` call. -/
inductive AssertionError where
  | invalidRangeShape
deriving DecidableEq, Repr

/-- `centerPosFromWordRange` (extension.ts lines 63-66): asserts the range is
single-line, then centers within the line.  The thrown `AssertionError` is
modelled as an `Except.error`. -/
def centerPosFromWordRange (range : Range) : Except AssertionError Position :=
  if range.start.line = range.stop.line then
    .ok ⟨range.start.line, centerOfRange range.start.character range.stop.character⟩
  else
    .error .invalidRangeShape

/-- `createRangeForPositions` (extension.ts lines 68-74): componentwise
min/max bounding rectangle of two positions. -/
def createRangeForPositions (pos1 pos2 : Position) : Range :=
  let minChar := min pos1.character pos2.character
  let maxChar := max pos1.character pos2.character
  let minLine := min pos1.line pos2.line
  let maxLine := max pos1.line pos2.line
  ⟨⟨minLine, minChar⟩, ⟨maxLine, maxChar⟩⟩

/-- A result element of `vscode.executeDefinitionProvider`: either a plain
`vscode.Location` or a `vscode.LocationLink` (distinguished in the source by
the presence of a `targetUri` field).  Uris are modelled by their `path`. -/
inductive Location where
  | location (uriPath : String) (range : Range)
  | locationLink (targetUriPath : String) (targetRange : Range)
      (targetSelectionRange : Option Range)
deriving DecidableEq, Repr

/-- The uri compared against the current document in `getDefinitionRange`:
`targetUri` for a `LocationLink`, `uri` for a `Location`. -/
def Location.uriPath : Location → String
  | .location p _ => p
  | .locationLink p _ _ => p

/-- `getDefinitionRange` (extension.ts lines 76-107), with the provider's
answer passed in as `locations`: empty result, more than one result, or a
single result in a different file yield `null`; otherwise the link's
`targetSelectionRange` is preferred, then `targetRange`, then `range`. -/
def getDefinitionRange (uriPath : String) (locations : List Location) :
    Option Range :=
  match locations with
  | [] => none
  | [location] =>
    if location.uriPath ≠ uriPath then none
    else
      match location with
      | .locationLink _ _ (some targetSelectionRange) => some targetSelectionRange
      | .locationLink _ targetRange none => some targetRange
      | .location _ range => some range
  | _ :: _ :: _ => none

/-- The style configuration record (`Config` in extension.ts lines 209-216).
`lineWidth` and `lineOpacity` are JavaScript numbers; percentages and widths
are exact here, so they are modelled as rationals. -/
structure Config where
  lineColor : String
  lineWidth : ℚ
  lineOpacity : ℚ
deriving DecidableEq, Repr

/-- A value stored in the workspace settings: a string or a number. -/
inductive ConfigValue where
  | str (s : String)
  | num (q : ℚ)
deriving DecidableEq, Repr

/-- The `lineToDefinition` section of the workspace settings, modelled as an
association list from setting key to stored value.  A key that is absent
models `config.get` returning `undefined`. -/
abbrev Settings := List (String × ConfigValue)

/-- `config.get<string>(key)`: the stored value when present with the
requested type, otherwise `undefined` (here `none`). -/
def getStringSetting (settings : Settings) (key : String) : Option String :=
  match settings.lookup key with
  | some (.str s) => some s
  | _ => none

/-- `config.get<number>(key)`: the stored value when present with the
requested type, otherwise `undefined` (here `none`). -/
def getNumberSetting (settings : Settings) (key : String) : Option ℚ :=
  match settings.lookup key with
  | some (.num q) => some q
  | _ => none

/-- `getConfig` (extension.ts lines 218-225).  Note the keys actually read:
`"lineColor"`, `"lineWidth"`, and `"opacity"` — the last one does not match
the key `lineToDefinition.lineOpacity` declared in package.json. -/
def getConfig (settings : Settings) : Config :=
  { lineColor := (getStringSetting settings "lineColor").getD "red"
    lineWidth := (getNumberSetting settings "lineWidth").getD 1
    lineOpacity := (getNumberSetting settings "opacity").getD 50 }

/-- The setting keys the extension declares under `lineToDefinition.` in its
package.json `contributes.configuration.properties`. -/
def declaredConfigKeys : List String :=
  ["lineColor", "lineWidth", "lineOpacity"]

/-- `BackgroundImageType` (extension.ts line 10): the three line shapes. -/
inductive BackgroundImageType where
  | topLeftToBottomRight
  | topRightToBottomLeft
  | vertical
deriving DecidableEq, Repr

/-- The single `<line .../>` element of the SVG data url built by
`generateBackgroundImage` (extension.ts lines 12-57): endpoint percentages
and stroke styling.  The surrounding string syntax is not modelled. -/
structure SvgLine where
  x1 : Nat
  y1 : Nat
  x2 : Nat
  y2 : Nat
  stroke : String
  strokeWidth : ℚ
  strokeOpacityPercent : ℚ
deriving DecidableEq, Repr

/-- `generateBackgroundImage` (extension.ts lines 12-57), as the line
element it draws. -/
def generateBackgroundImage (type : BackgroundImageType) (config : Config) :
    SvgLine :=
  match type with
  | .topLeftToBottomRight =>
    ⟨0, 0, 100, 100, config.lineColor, config.lineWidth, config.lineOpacity⟩
  | .topRightToBottomLeft =>
    ⟨100, 0, 0, 100, config.lineColor, config.lineWidth, config.lineOpacity⟩
  | .vertical =>
    ⟨50, 0, 50, 100, config.lineColor, config.lineWidth, config.lineOpacity⟩

/-- `linesToCss` (extension.ts line 60) renders `lines * lineHeight` followed
by a `px` suffix; this embedding keeps the numeric pixel value. -/
def linesToCss (lines lineHeight : Int) : Int :=
  lines * lineHeight

/-- The orientation selection of `getDisplayDecoration` (extension.ts lines
151-159), on `widthDiff = definitionCenter.character - cursorCenter.character`. -/
def selectBackgroundType (widthDiff : Int) : BackgroundImageType :=
  if widthDiff = 0 then .vertical
  else if widthDiff < 0 then .topLeftToBottomRight
  else .topRightToBottomLeft

/-- The decoration created by `vscode.window.createTextEditorDecorationType`
plus `setDecorations` (extension.ts lines 165-196): the numeric content of
the CSS the source builds, the chosen line shape, and the range the
decoration is applied to.  This is the render-handle the state machine owns
and later disposes. -/
structure Decoration where
  widthChars : Int
  heightCssPx : Int
  topCssPx : Int
  heightLines : Int
  lineHeight : Int
  backgroundImage : SvgLine
  appliedRange : Range
deriving DecidableEq, Repr

/-- `DecorationData` (extension.ts lines 109-112). -/
structure DecorationData where
  cursorWordRange : Range
  decoration : Decoration
deriving DecidableEq, Repr

/-- `DisplayResult` (extension.ts line 114). -/
inductive DisplayResult where
  | newDisplay (data : DecorationData)
  | keepLastDisplay
  | none
deriving DecidableEq, Repr

/-- The host services one cycle of `getDisplayDecoration` consults, given an
active editor: the current document's uri path, the word range the document
reports at the cursor (`getWordRangeAtPosition`), and the list of locations
the definition provider answers for the cursor position. -/
structure EditorEnv where
  documentPath : String
  cursorWordRange : Option Range
  resolverLocations : List Location
deriving DecidableEq, Repr

/-- The host environment of one cycle: `vscode.window.activeTextEditor`. -/
structure Env where
  activeTextEditor : Option EditorEnv
deriving DecidableEq, Repr

instance : DecidableEq (Except AssertionError DisplayResult)
  | .ok x, .ok y =>
    if h : x = y then .isTrue (by rw [h]) else .isFalse (fun e => h (by cases e; rfl))
  | .error x, .error y =>
    if h : x = y then .isTrue (by rw [h]) else .isFalse (fun e => h (by cases e; rfl))
  | .ok _, .error _ => .isFalse (fun e => by cases e)
  | .error _, .ok _ => .isFalse (fun e => by cases e)

/-- What one call of `getDisplayDecoration` produced: its returned
`DisplayResult` (or the assertion it threw), whether it reached the
definition lookup (`executeDefinitionProvider`), and how many decorations it
created and rendered (`createTextEditorDecorationType`/`setDecorations`). -/
structure DisplayOutcome where
  result : Except AssertionError DisplayResult
  lookupIssued : Bool
  renderCalls : Nat
deriving DecidableEq, Repr

/-- `getDisplayDecoration` from the definition lookup on (extension.ts lines
139-198): resolve the definition range; on `null` return `none`; otherwise
compute centers (each may throw `InvalidRangeShape`), bounding rectangle,
orientation, trim-corrected width, height, CSS values, and create the
decoration. -/
def computeNewDisplay (config : Config) (lineHeight : Int) (editor : EditorEnv)
    (cursorWordRange : Range) : DisplayOutcome :=
  match getDefinitionRange editor.documentPath editor.resolverLocations with
  | Option.none => ⟨.ok .none, true, 0⟩
  | some definitionRange =>
    match centerPosFromWordRange definitionRange with
    | .error e => ⟨.error e, true, 0⟩
    | .ok definitionCenterPos =>
      match centerPosFromWordRange cursorWordRange with
      | .error e => ⟨.error e, true, 0⟩
      | .ok cursorWordCenterPos =>
        let decorationRange := createRangeForPositions definitionCenterPos cursorWordCenterPos
        let widthDiff := definitionCenterPos.character - cursorWordCenterPos.character
        let backgroundType := selectBackgroundType widthDiff
        let backgroundImage := generateBackgroundImage backgroundType config
        let widthChars := max 2
          (decorationRange.stop.character - decorationRange.start.character -
            (if backgroundType = .topRightToBottomLeft then 1 else 0))
        let heightLines := decorationRange.stop.line - decorationRange.start.line
        let decoration : Decoration :=
          { widthChars := widthChars
            heightCssPx := linesToCss (heightLines - 1) lineHeight
            topCssPx := linesToCss 1 lineHeight
            heightLines := heightLines
            lineHeight := lineHeight
            backgroundImage := backgroundImage
            appliedRange := decorationRange }
        ⟨.ok (.newDisplay ⟨cursorWordRange, decoration⟩), true, 1⟩

/-- `getDisplayDecoration` (extension.ts lines 116-199): no active editor or
no word under the cursor return `none`; a word range equal to the last
decoration's anchored word range short-circuits to `keep-last-display`
before any definition lookup; otherwise the lookup proceeds. -/
def getDisplayDecoration (config : Config) (lineHeight : Int)
    (lastDecoration : Option DecorationData) (env : Env) : DisplayOutcome :=
  match env.activeTextEditor with
  | Option.none => ⟨.ok .none, false, 0⟩
  | some editor =>
    match editor.cursorWordRange with
    | Option.none => ⟨.ok .none, false, 0⟩
    | some cursorWordRange =>
      match lastDecoration with
      | some last =>
        if cursorWordRange = last.cursorWordRange then
          ⟨.ok .keepLastDisplay, false, 0⟩
        else computeNewDisplay config lineHeight editor cursorWordRange
      | Option.none => computeNewDisplay config lineHeight editor cursorWordRange

/-- Projection: the decoration of a `new-display` outcome, if any. -/
def DisplayOutcome.newDecoration : DisplayOutcome → Option Decoration
  | ⟨.ok (.newDisplay data), _, _⟩ => some data.decoration
  | _ => Option.none

/-- An externally visible side effect of applying a display result:
`decoration.dispose()` releasing a render-handle. -/
inductive Effect where
  | dispose (d : Decoration)
deriving DecidableEq, Repr

/-- The `switch` of the selection-change handler in `activate` (extension.ts
lines 241-263), applied when a `getDisplayDecoration` call completes: it
reads the `lastDecoration` variable at completion time and returns its new
value together with the dispose effects executed.  There is no sequence
number or staleness check anywhere in the handler. -/
def handleSelectionResult (lastDecoration : Option DecorationData)
    (result : DisplayResult) : Option DecorationData × List Effect :=
  match result with
  | .keepLastDisplay => (lastDecoration, [])
  | .none =>
    match lastDecoration with
    | some last => (Option.none, [.dispose last.decoration])
    | Option.none => (Option.none, [])
  | .newDisplay data =>
    match lastDecoration with
    | some last => (some data, [.dispose last.decoration])
    | Option.none => (some data, [])

/-- One full selection-change cycle (extension.ts lines 239-264): run
`getDisplayDecoration` against the cycle's host environment and apply its
result to the stored state.  A thrown assertion rejects the handler's
promise before the `switch` runs: the stored state is untouched and no
dispose or render effect is executed; the event loop goes on to the next
cycle (the failure is confined to this one). -/
def runSelectionEvent (config : Config) (lineHeight : Int)
    (state : Option DecorationData) (env : Env) :
    Option DecorationData × List Effect :=
  match (getDisplayDecoration config lineHeight state env).result with
  | .error _ => (state, [])
  | .ok result => handleSelectionResult state result

/-- Overlapping lookups resolving out of issuance order: the handler applies
each `DisplayResult` in the order the lookups *complete*, each application
reading the state left by the previous one.  `results` is the completion
order; the returned effects are accumulated in execution order. -/
def runCompletions (state : Option DecorationData)
    (results : List DisplayResult) : Option DecorationData × List Effect :=
  match results with
  | [] => (state, [])
  | r :: rest =>
    let step := handleSelectionResult state r
    let finish := runCompletions step.fst rest
    (finish.fst, step.snd ++ finish.snd)

/-! Concrete sample data used to evaluate the definitions on closed inputs. -/

/-- A single-line word range, lines 3, characters 2-5. -/
def sampleRange : Range := ⟨⟨3, 2⟩, ⟨3, 5⟩⟩

/-- A concrete decoration value (the vertical-connector scenario of the
specification: anchor word on line 3, definition on line 10, line height
20px). -/
def sampleDecoration : Decoration :=
  { widthChars := 2
    heightCssPx := 120
    topCssPx := 20
    heightLines := 7
    lineHeight := 20
    backgroundImage := ⟨50, 0, 50, 100, "red", 1, 50⟩
    appliedRange := ⟨⟨3, 3⟩, ⟨10, 3⟩⟩ }

/-- A concrete `DecorationData` anchored at `sampleRange`. -/
def sampleDecorationData : DecorationData := ⟨sampleRange, sampleDecoration⟩

/-- An editor whose cursor sits on `sampleRange`. -/
def sampleEditor : EditorEnv := ⟨"a.ts", some sampleRange, []⟩

/-- A same-file definition location. -/
def locSame : Location := .location "a.ts" ⟨⟨10, 2⟩, ⟨10, 5⟩⟩

/-- A definition location in a different file. -/
def locOther : Location := .location "b.ts" ⟨⟨10, 2⟩, ⟨10, 5⟩⟩

/-- An editor whose definition provider answers with an empty list. -/
def emptyResolverEditor : EditorEnv := ⟨"a.ts", some sampleRange, []⟩

/-- An editor whose definition provider answers with a single same-file
location whose range spans lines 10-12 (multi-line). -/
def multiLineDefnEditor : EditorEnv :=
  ⟨"a.ts", some sampleRange, [.location "a.ts" ⟨⟨10, 2⟩, ⟨12, 5⟩⟩]⟩

/-- An editor whose cursor word (line 3, chars 10-14) and single same-file
definition (line 3, chars 2-5) lie on the same line. -/
def sameLineDefnEditor : EditorEnv :=
  ⟨"a.ts", some ⟨⟨3, 10⟩, ⟨3, 14⟩⟩, [.location "a.ts" ⟨⟨3, 2⟩, ⟨3, 5⟩⟩]⟩

/-- An editor realising the vertical-connector scenario: cursor word
`(3,2)-(3,5)`, definition `(10,2)-(10,5)` in the same file. -/
def verticalScenarioEditor : EditorEnv :=
  ⟨"a.ts", some sampleRange, [.location "a.ts" ⟨⟨10, 2⟩, ⟨10, 5⟩⟩]⟩

/-- The decoration `getDisplayDecoration` creates for
`verticalScenarioEditor` with the default config and line height 20. -/
def verticalScenarioDecoration : Decoration :=
  { widthChars := 2
    heightCssPx := 120
    topCssPx := 20
    heightLines := 7
    lineHeight := 20
    backgroundImage := ⟨50, 0, 50, 100, "red", 1, 50⟩
    appliedRange := ⟨⟨3, 3⟩, ⟨10, 3⟩⟩ }

/-- Decoration data as produced by a lookup that was superseded (issued
first, completing last in the out-of-order scenario). -/
def staleDecorationData : DecorationData :=
  ⟨⟨⟨3, 2⟩, ⟨3, 5⟩⟩,
   { widthChars := 2
     heightCssPx := 20
     topCssPx := 20
     heightLines := 2
     lineHeight := 20
     backgroundImage := ⟨0, 0, 100, 100, "red", 1, 50⟩
     appliedRange := ⟨⟨3, 3⟩, ⟨5, 4⟩⟩ }⟩

/-- Decoration data as produced by the most recently issued lookup
(completing first in the out-of-order scenario). -/
def freshDecorationData : DecorationData :=
  ⟨⟨⟨8, 2⟩, ⟨8, 6⟩⟩,
   { widthChars := 3
     heightCssPx := 40
     topCssPx := 20
     heightLines := 3
     lineHeight := 20
     backgroundImage := ⟨100, 0, 0, 100, "red", 1, 50⟩
     appliedRange := ⟨⟨5, 4⟩, ⟨8, 4⟩⟩ }⟩

/-! Theorems. -/

/-- Helper: `centerOfRange` computes `start` plus the floor of the exact
rational quotient `(end - start) / 2`, as `Math.floor` does in the source. -/
theorem centerOfRange_eq_floor (s e : Int) :
    centerOfRange s e = s + ⌊((e - s : Int) : ℚ) / 2⌋ := by
  unfold centerOfRange
  congr 1
  rw [Int.fdiv_eq_ediv _ (by norm_num)]
  have h := Rat.floor_intCast_div_natCast (e - s) 2
  norm_num at h
  push_cast
  exact h.symm

/-- Claim C9: for all integers `start` and `end`, `centerOfRange(start, end)`
returns `start + floor((end - start) / 2)` (true floor, not rounding), and in
particular `centerOfRange(0,4) = 2` and `centerOfRange(0,5) = 2`. -/
theorem centerOfRange_floor_property :
    (∀ s e : Int, centerOfRange s e = s + ⌊((e - s : Int) : ℚ) / 2⌋) ∧
    centerOfRange 0 4 = 2 ∧ centerOfRange 0 5 = 2 :=
  ⟨centerOfRange_eq_floor, by decide, by decide⟩

/-- Claim C10: `centerOfRange` is symmetric in its arguments, and both
orders equal `floor((a + b) / 2)`, because `Math.floor` rounds toward
negative infinity when the difference is negative. -/
theorem centerOfRange_symmetric :
    ∀ a b : Int, centerOfRange a b = centerOfRange b a ∧
      centerOfRange a b = ⌊((a + b : Int) : ℚ) / 2⌋ := by
  have key : ∀ a b : Int, centerOfRange a b = ⌊((a + b : Int) : ℚ) / 2⌋ := by
    intro a b
    rw [centerOfRange_eq_floor]
    have h2 : ((a + b : Int) : ℚ) / 2 = ((b - a : Int) : ℚ) / 2 + (a : Int) := by
      push_cast
      ring
    rw [h2, Int.floor_add_int]
    exact add_comm a _
  intro a b
  refine ⟨?_, key a b⟩
  rw [key a b, key b a, Int.add_comm a b]

/-- Claim C5: orientation selection is a total deterministic function of the
two center positions: equal columns give `vertical`, definition center left
of cursor center gives the descending shape (`top-left-to-bottom-right`),
and definition center right of cursor center gives the ascending shape
(`top-right-to-bottom-left`). -/
theorem selectBackgroundType_cases (definitionCenter cursorCenter : Position) :
    (definitionCenter.character = cursorCenter.character →
      selectBackgroundType (definitionCenter.character - cursorCenter.character) =
        BackgroundImageType.vertical) ∧
    (definitionCenter.character < cursorCenter.character →
      selectBackgroundType (definitionCenter.character - cursorCenter.character) =
        BackgroundImageType.topLeftToBottomRight) ∧
    (cursorCenter.character < definitionCenter.character →
      selectBackgroundType (definitionCenter.character - cursorCenter.character) =
        BackgroundImageType.topRightToBottomLeft) := by
  refine ⟨fun h => ?_, fun h => ?_, fun h => ?_⟩
  · have hd : definitionCenter.character - cursorCenter.character = 0 := by omega
    rw [hd]
    rfl
  · unfold selectBackgroundType
    rw [if_neg (by omega), if_pos (by omega)]
  · unfold selectBackgroundType
    rw [if_neg (by omega), if_neg (by omega)]

/-- Witness for claim C5 at concrete centers: columns 5 = 5 give vertical,
2 < 7 gives descending, 9 > 4 gives ascending. -/
theorem selectBackgroundType_cases_witness :
    selectBackgroundType ((⟨0, 5⟩ : Position).character - (⟨0, 5⟩ : Position).character) =
      BackgroundImageType.vertical ∧
    selectBackgroundType ((⟨0, 2⟩ : Position).character - (⟨0, 7⟩ : Position).character) =
      BackgroundImageType.topLeftToBottomRight ∧
    selectBackgroundType ((⟨0, 9⟩ : Position).character - (⟨0, 4⟩ : Position).character) =
      BackgroundImageType.topRightToBottomLeft :=
  ⟨(selectBackgroundType_cases ⟨0, 5⟩ ⟨0, 5⟩).1 rfl,
   (selectBackgroundType_cases ⟨0, 2⟩ ⟨0, 7⟩).2.1 (by decide),
   (selectBackgroundType_cases ⟨0, 9⟩ ⟨0, 4⟩).2.2 (by decide)⟩

/-- Claim C2: while a decoration is showing, a cursor event whose word range
equals the anchored word range short-circuits: `getDisplayDecoration`
returns `keep-last-display` without issuing a definition lookup and without
rendering, and applying that result leaves the state unchanged with no
effects — so a second consecutive event on the same word performs no second
lookup. -/
theorem keepCurrent_short_circuit (config : Config) (lineHeight : Int)
    (last : DecorationData) (editor : EditorEnv) (r : Range)
    (hw : editor.cursorWordRange = some r)
    (hr : r = last.cursorWordRange) :
    getDisplayDecoration config lineHeight (some last) ⟨some editor⟩ =
      ⟨.ok .keepLastDisplay, false, 0⟩ ∧
    handleSelectionResult (some last) DisplayResult.keepLastDisplay =
      (some last, []) := by
  subst hr
  refine ⟨?_, rfl⟩
  simp [getDisplayDecoration, hw]

/-- Witness for claim C2: the short-circuit at a concrete editor state whose
cursor word range equals the anchored one. -/
theorem keepCurrent_short_circuit_witness :
    getDisplayDecoration (getConfig []) 20 (some sampleDecorationData)
      ⟨some sampleEditor⟩ = ⟨.ok .keepLastDisplay, false, 0⟩ ∧
    handleSelectionResult (some sampleDecorationData)
      DisplayResult.keepLastDisplay = (some sampleDecorationData, []) :=
  keepCurrent_short_circuit (getConfig []) 20 sampleDecorationData
    sampleEditor sampleRange rfl rfl

/-- Claim C3: an empty resolver result, a result with more than one element,
and a single candidate in a different document all make `getDefinitionRange`
return `null`; `getDisplayDecoration` then emits `none` (Clear) with no
render call, and applying `none` sends the state machine to Idle. -/
theorem unusable_definition_clears (path : String) (l : Location)
    (ls : List Location) (config : Config) (lineHeight : Int)
    (editor : EditorEnv) (r : Range) (state : Option DecorationData)
    (h2 : 2 ≤ ls.length) (hl : l.uriPath ≠ path)
    (hres : getDefinitionRange editor.documentPath editor.resolverLocations =
      Option.none) :
    getDefinitionRange path [] = Option.none ∧
    getDefinitionRange path ls = Option.none ∧
    getDefinitionRange path [l] = Option.none ∧
    computeNewDisplay config lineHeight editor r = ⟨.ok .none, true, 0⟩ ∧
    (handleSelectionResult state DisplayResult.none).fst = Option.none := by
  refine ⟨rfl, ?_, ?_, ?_, ?_⟩
  · match ls, h2 with
    | _ :: _ :: _, _ => rfl
  · simp [getDefinitionRange, hl]
  · unfold computeNewDisplay
    rw [hres]
  · cases state <;> rfl

/-- Witness for claim C3: concrete unusable resolver results (two-element
list, cross-file candidate, empty list) each produce the Clear decision. -/
theorem unusable_definition_clears_witness :
    getDefinitionRange "a.ts" [] = Option.none ∧
    getDefinitionRange "a.ts" [locSame, locSame] = Option.none ∧
    getDefinitionRange "a.ts" [locOther] = Option.none ∧
    computeNewDisplay (getConfig []) 20 emptyResolverEditor sampleRange =
      ⟨.ok .none, true, 0⟩ ∧
    (handleSelectionResult (some sampleDecorationData)
      DisplayResult.none).fst = Option.none :=
  unusable_definition_clears "a.ts" locOther [locSame, locSame] (getConfig [])
    20 emptyResolverEditor sampleRange (some sampleDecorationData)
    (by decide) (by decide) rfl

/-- Claim C4: the state machine holds at most one decoration (its state is
`Option DecorationData`), and on every transition out of `Showing` that does
not carry the current render-handle forward — replacement or clearing — the
previously held handle is disposed. -/
theorem dispose_before_drop (d : DecorationData) (result : DisplayResult)
    (hdrop : (handleSelectionResult (some d) result).fst ≠ some d) :
    Effect.dispose d.decoration ∈ (handleSelectionResult (some d) result).snd := by
  cases result with
  | keepLastDisplay => exact absurd rfl hdrop
  | none => simp [handleSelectionResult]
  | newDisplay data => simp [handleSelectionResult]

/-- Witness for claim C4: clearing from a concrete showing state disposes
the held render-handle. -/
theorem dispose_before_drop_witness :
    Effect.dispose sampleDecorationData.decoration ∈
      (handleSelectionResult (some sampleDecorationData)
        DisplayResult.none).snd :=
  dispose_before_drop sampleDecorationData DisplayResult.none (by decide)

/-- Claim C6: when the single same-file definition range spans multiple
lines, the `assert` in `centerPosFromWordRange` fails: the cycle returns the
`InvalidRangeShape` error instead of a decision, creates no decoration, and
the whole selection-event cycle leaves the stored state untouched with no
effects — the failure is confined to that cycle and the event loop (modelled
as the total function `runSelectionEvent`) carries on. -/
theorem invalidRangeShape_confined (config : Config) (lineHeight : Int)
    (state : Option DecorationData) (editor : EditorEnv) (r defnRange : Range)
    (hw : editor.cursorWordRange = some r)
    (hshort : ∀ last, state = some last → r ≠ last.cursorWordRange)
    (hdefn : getDefinitionRange editor.documentPath editor.resolverLocations =
      some defnRange)
    (hmulti : defnRange.start.line ≠ defnRange.stop.line) :
    (getDisplayDecoration config lineHeight state ⟨some editor⟩).result =
      .error .invalidRangeShape ∧
    (getDisplayDecoration config lineHeight state ⟨some editor⟩).renderCalls = 0 ∧
    runSelectionEvent config lineHeight state ⟨some editor⟩ = (state, []) := by
  have hc : centerPosFromWordRange defnRange = .error .invalidRangeShape := by
    unfold centerPosFromWordRange
    rw [if_neg hmulti]
  have hcompute : computeNewDisplay config lineHeight editor r =
      ⟨.error .invalidRangeShape, true, 0⟩ := by
    unfold computeNewDisplay
    rw [hdefn]
    simp [hc]
  have hdisp : getDisplayDecoration config lineHeight state ⟨some editor⟩ =
      ⟨.error .invalidRangeShape, true, 0⟩ := by
    cases state with
    | none => simp [getDisplayDecoration, hw, hcompute]
    | some last =>
      have hne := hshort last rfl
      simp [getDisplayDecoration, hw, hne, hcompute]
  refine ⟨by rw [hdisp], by rw [hdisp], ?_⟩
  unfold runSelectionEvent
  rw [hdisp]

/-- Witness for claim C6: a concrete multi-line definition target aborts the
cycle with no state change and no effects. -/
theorem invalidRangeShape_confined_witness :
    (getDisplayDecoration (getConfig []) 20 Option.none
      ⟨some multiLineDefnEditor⟩).result = .error .invalidRangeShape ∧
    (getDisplayDecoration (getConfig []) 20 Option.none
      ⟨some multiLineDefnEditor⟩).renderCalls = 0 ∧
    runSelectionEvent (getConfig []) 20 Option.none
      ⟨some multiLineDefnEditor⟩ = (Option.none, []) :=
  invalidRangeShape_confined (getConfig []) 20 Option.none multiLineDefnEditor
    sampleRange ⟨⟨10, 2⟩, ⟨12, 5⟩⟩ rfl (fun _ h => nomatch h) rfl (by decide)

/-- Claim C1, counterexample: with lookup A issued before lookup B but
completing after it, the handler (which has no sequence-number check)
applies A's response anyway: starting from Idle, after B's response installs
`freshDecorationData`, A's late response replaces it with
`staleDecorationData` and disposes B's handle — a state change and side
effects, where the claim requires A's response to be discarded. -/
theorem stale_response_changes_state :
    (runCompletions Option.none
      [DisplayResult.newDisplay freshDecorationData,
       DisplayResult.newDisplay staleDecorationData]).fst =
      some staleDecorationData ∧
    staleDecorationData ≠ freshDecorationData ∧
    (runCompletions Option.none
      [DisplayResult.newDisplay freshDecorationData,
       DisplayResult.newDisplay staleDecorationData]).snd =
      [Effect.dispose freshDecorationData.decoration] := by
  decide

/-- Claim C1 amended: the handler applies responses in completion order with
no staleness check, so the displayed state is decided by the response that
completes last, not the lookup issued last: after any sequence of
completions ending in a `new-display` response, the state holds exactly that
response's decoration. -/
theorem last_completion_wins (state : Option DecorationData)
    (results : List DisplayResult) (d : DecorationData) :
    (runCompletions state
      (results ++ [DisplayResult.newDisplay d])).fst = some d := by
  induction results generalizing state with
  | nil => cases state <;> rfl
  | cons r rest ih =>
    simp only [List.cons_append, runCompletions]
    exact ih _

/-- Claim C7, counterexample: with cursor word and definition on the same
line, `heightLines = 0` and the CSS height is `(0 - 1) * 20 = -20`
pixels — negative, because nothing floors the value at the call site. -/
theorem negative_height_counterexample :
    Option.map Decoration.heightCssPx
      ((getDisplayDecoration (getConfig []) 20 Option.none
        ⟨some sameLineDefnEditor⟩).newDecoration) = some (-20) ∧
    (-20 : Int) < 0 := by
  decide

/-- Claim C7 amended: every decoration the display computation creates has
CSS height exactly `(heightLines - 1) * lineHeightPx` and top inset exactly
`1 * lineHeightPx`, with no flooring anywhere (the height is negative
whenever the two centers share a line). -/
theorem height_formula (config : Config) (lineHeight : Int)
    (state : Option DecorationData) (env : Env) (d : Decoration)
    (h : (getDisplayDecoration config lineHeight state env).newDecoration =
      some d) :
    d.heightCssPx = (d.heightLines - 1) * d.lineHeight ∧
    d.topCssPx = 1 * d.lineHeight ∧
    d.lineHeight = lineHeight := by
  have main : ∀ editor r,
      (computeNewDisplay config lineHeight editor r).newDecoration = some d →
      d.heightCssPx = (d.heightLines - 1) * d.lineHeight ∧
      d.topCssPx = 1 * d.lineHeight ∧
      d.lineHeight = lineHeight := by
    intro editor r hc
    unfold computeNewDisplay at hc
    split at hc
    · simp [DisplayOutcome.newDecoration] at hc
    · split at hc
      · simp [DisplayOutcome.newDecoration] at hc
      · split at hc
        · simp [DisplayOutcome.newDecoration] at hc
        · simp only [DisplayOutcome.newDecoration, Option.some.injEq] at hc
          subst hc
          exact ⟨rfl, rfl, rfl⟩
  obtain ⟨ed⟩ := env
  cases ed with
  | none => simp [getDisplayDecoration, DisplayOutcome.newDecoration] at h
  | some editor =>
    rcases hw : editor.cursorWordRange with _ | r
    · simp [getDisplayDecoration, hw, DisplayOutcome.newDecoration] at h
    · cases state with
      | none =>
        simp only [getDisplayDecoration, hw] at h
        exact main editor r h
      | some last =>
        by_cases heq : r = last.cursorWordRange
        · simp [getDisplayDecoration, hw, heq, DisplayOutcome.newDecoration] at h
        · simp only [getDisplayDecoration, hw, if_neg heq] at h
          exact main editor r h

/-- Witness for claim C7 (amended): the vertical-connector scenario creates
a decoration with height `(7 - 1) * 20 = 120` and top inset `20`. -/
theorem height_formula_witness :
    verticalScenarioDecoration.heightCssPx =
      (verticalScenarioDecoration.heightLines - 1) *
        verticalScenarioDecoration.lineHeight ∧
    verticalScenarioDecoration.topCssPx =
      1 * verticalScenarioDecoration.lineHeight ∧
    verticalScenarioDecoration.lineHeight = 20 :=
  height_formula (getConfig []) 20 Option.none ⟨some verticalScenarioEditor⟩
    verticalScenarioDecoration (by decide)

/-- Claim C8: missing settings fall back to the defaults `red`, `1`, `50`,
read wholesale — and, because `getConfig` reads the key `"opacity"` while
package.json declares `lineToDefinition.lineOpacity`, any settings store
that only uses the declared keys always yields `lineOpacity = 50`: in
particular a user-set `lineOpacity` of `80` is ignored. -/
theorem getConfig_defaults_and_opacity_key (settings : Settings)
    (hdecl : ∀ kv ∈ settings, kv.fst ∈ declaredConfigKeys) :
    getConfig [] = { lineColor := "red", lineWidth := 1, lineOpacity := 50 } ∧
    (getConfig settings).lineOpacity = 50 ∧
    getConfig [("lineOpacity", ConfigValue.num 80)] =
      { lineColor := "red", lineWidth := 1, lineOpacity := 50 } := by
  refine ⟨by decide, ?_, by decide⟩
  have hlookup : settings.lookup "opacity" = Option.none := by
    induction settings with
    | nil => rfl
    | cons kv rest ih =>
      obtain ⟨k, v⟩ := kv
      have hk : k ∈ declaredConfigKeys :=
        hdecl (k, v) (List.mem_cons_self (k, v) rest)
      have hne : (("opacity" : String) == k) = false := by
        simp only [declaredConfigKeys, List.mem_cons,
          List.not_mem_nil, or_false] at hk
        rcases hk with h | h | h <;> subst h <;> rfl
      simp only [List.lookup, hne]
      exact ih fun kv2 hm => hdecl kv2 (List.mem_cons_of_mem _ hm)
  simp [getConfig, getNumberSetting, hlookup]

/-- Witness for claim C8: the failing input — a settings store holding only
the declared key `lineOpacity` with value `80` — still produces
`lineOpacity = 50`. -/
theorem getConfig_defaults_and_opacity_key_witness :
    getConfig [] = { lineColor := "red", lineWidth := 1, lineOpacity := 50 } ∧
    (getConfig [("lineOpacity", ConfigValue.num 80)]).lineOpacity = 50 ∧
    getConfig [("lineOpacity", ConfigValue.num 80)] =
      { lineColor := "red", lineWidth := 1, lineOpacity := 50 } :=
  getConfig_defaults_and_opacity_key [("lineOpacity", ConfigValue.num 80)]
    (by decide)

end LineToDefn
